import Mathlib

/-!
Verification of `eqpickertool/gui/views/takanamidialog.py`.

The module is shallowly embedded: Python numbers are modelled as exact
rationals (`ℚ`), sample indices as integers, Python `int()` as truncation
toward zero, and the two Qt signals emitted by a task run as a list of
events.  Widget toolkit behaviour (layout, rendering, time-of-day
wrapping) is outside the model; the spinbox minimum/maximum/displayed
times are carried as plain rational fields of the dialog state.
-/

namespace Apasvo

/-- `MINIMUM_MARGIN_IN_SECS = 0.5` (line 39 of the source). -/
def MINIMUM_MARGIN_IN_SECS : ℚ := 1 / 2

/-- Python `int()` applied to a numeric value: truncation toward zero
(floor for nonnegative values, ceiling for negative ones).  Written
with `Rat.floor` so that it evaluates by kernel reduction. -/
def pyInt (q : ℚ) : ℤ := if 0 ≤ q then q.floor else -(-q).floor

/-- `pyInt` agrees with the floor/ceiling description of Python
truncation. -/
lemma pyInt_eq (q : ℚ) : pyInt q = if 0 ≤ q then ⌊q⌋ else ⌈q⌉ := by
  have hfl : ∀ r : ℚ, r.floor = ⌊r⌋ := fun r => by
    rw [Rat.floor_def' r, Rat.floor_def]
  rw [pyInt, hfl, hfl, Int.floor_neg, neg_neg]

/-- `pyInt` of a nonnegative value is nonnegative. -/
lemma pyInt_nonneg {q : ℚ} (h : 0 ≤ q) : 0 ≤ pyInt q := by
  rw [pyInt_eq, if_pos h]
  exact Int.floor_nonneg.mpr h

/-- `pyInt` never exceeds an integer upper bound of its argument. -/
lemma pyInt_le_of_le {q : ℚ} {n : ℤ} (h : q ≤ (n : ℚ)) :
    pyInt q ≤ n := by
  have hc : ⌈q⌉ ≤ n := Int.ceil_le.mpr h
  rw [pyInt_eq]
  split_ifs with hq
  · exact le_trans (Int.floor_le_ceil q) hc
  · exact hc

/-- The part of an opened seismic record the dialog reads:
`len(record.signal)` and the sample rate `record.fs`. -/
structure Record where
  signalLength : ℕ
  fs : ℚ
deriving DecidableEq, Repr

/-- The two Qt signals a `TakanamiTask` can emit. -/
inductive Sig where
  | positionEstimated
  | finished
deriving DecidableEq, Repr

/-- `TakanamiTask.__init__` state: record, the `start`/`end` sample bounds
passed by the dialog, and the `_abort` cancellation flag. -/
structure TakanamiTask where
  record : Record
  start : ℚ
  «end» : ℚ
  _abort : Bool
deriving DecidableEq, Repr

/-- `TakanamiTask.abort` (lines 84-85): sets the cancellation flag. -/
def TakanamiTask.abort (t : TakanamiTask) : TakanamiTask :=
  { t with _abort := true }

/-- `start_time_in_secs = max(0.0, self.start) / self.record.fs`
(line 70). -/
def TakanamiTask.start_time_in_secs (t : TakanamiTask) : ℚ :=
  max 0 t.start / t.record.fs

/-- `end_time_in_secs = min(len(self.record.signal), self.end) /
self.record.fs` (lines 71-72). -/
def TakanamiTask.end_time_in_secs (t : TakanamiTask) : ℚ :=
  min (t.record.signalLength : ℚ) t.«end» / t.record.fs

/-- External interleaving of one `run()` invocation: whether `abort()` is
delivered after `run()` has reset the flag but before the first
checkpoint (line 73), whether it is delivered between the two
checkpoints (line 79), and whether the opaque algorithm invocation
(lines 75-78) raises. -/
structure RunEnv where
  abortBeforeCp1 : Bool
  abortBeforeCp2 : Bool
  algRaises : Bool
deriving DecidableEq, Repr

/-- `TakanamiTask.run` (lines 68-82).  Returns the list of signals
emitted, in emission order, and whether an exception propagated out of
`run()`.  Line 69 (`self._abort = False`) overwrites whatever value the
flag had when `run()` was entered. -/
def TakanamiTask.run (t : TakanamiTask) (env : RunEnv) : List Sig × Bool :=
  let t1 := { t with _abort := false }      -- line 69: self._abort = False
  let flagAtCp1 := t1._abort || env.abortBeforeCp1
  if flagAtCp1 then ([], false)             -- line 73: first checkpoint
  else if env.algRaises then ([], true)     -- lines 75-78: algorithm raises
  else if flagAtCp1 || env.abortBeforeCp2 then ([], false)  -- line 79
  else ([Sig.positionEstimated, Sig.finished], false)       -- lines 81-82

/-- Claim C1 — counterexample.  A task on which `abort()` was called
before `run()` begins executing (so `_abort = true` at entry) still
emits both signals when no abort arrives during the run: line 69 resets
the flag, erasing the pre-run abort.  The claim says such a run emits
neither signal. -/
theorem run_abort_before_run_emits_both :
    (TakanamiTask.abort ⟨⟨10, 1⟩, 2, 8, false⟩)._abort = true ∧
    TakanamiTask.run (TakanamiTask.abort ⟨⟨10, 1⟩, 2, 8, false⟩)
        ⟨false, false, false⟩ =
      ([Sig.positionEstimated, Sig.finished], false) ∧
    ([Sig.positionEstimated, Sig.finished] : List Sig) ≠ [] := by
  decide

/-- Claim C1 — amended.  For every run that does not raise: if no abort
is delivered between the start of `run()` (which resets the cancellation
flag) and the second checkpoint, the run emits `positionEstimated`
exactly once and then `finished` exactly once, in that order; if an
abort is delivered before either checkpoint (after `run()` has begun),
the run emits neither signal.  The flag value at entry — in particular
an `abort()` issued before `run()` begins — is irrelevant, since
`run()` clears it on entry. -/
theorem run_signal_protocol (t : TakanamiTask) (env : RunEnv) (b : Bool)
    (hraise : env.algRaises = false) :
    ((env.abortBeforeCp1 = false ∧ env.abortBeforeCp2 = false) →
      TakanamiTask.run t env = ([Sig.positionEstimated, Sig.finished], false)) ∧
    ((env.abortBeforeCp1 = true ∨ env.abortBeforeCp2 = true) →
      TakanamiTask.run t env = ([], false)) ∧
    TakanamiTask.run { t with _abort := b } env = TakanamiTask.run t env := by
  refine ⟨?_, ?_, ?_⟩
  · rintro ⟨h1, h2⟩
    simp [TakanamiTask.run, h1, h2, hraise]
  · rintro (h | h) <;> simp [TakanamiTask.run, h, hraise]
  · simp [TakanamiTask.run]

/-- Witness for `run_signal_protocol` at concrete inputs. -/
theorem run_signal_protocol_witness :
    TakanamiTask.run ⟨⟨10, 1⟩, 2, 8, false⟩ ⟨false, false, false⟩ =
      ([Sig.positionEstimated, Sig.finished], false) ∧
    TakanamiTask.run ⟨⟨10, 1⟩, 2, 8, false⟩ ⟨true, false, false⟩ = ([], false) :=
  ⟨(run_signal_protocol ⟨⟨10, 1⟩, 2, 8, false⟩ ⟨false, false, false⟩ false rfl).1
      ⟨rfl, rfl⟩,
   (run_signal_protocol ⟨⟨10, 1⟩, 2, 8, false⟩ ⟨true, false, false⟩ false rfl).2.1
      (Or.inl rfl)⟩

/-- Claim C9: if the algorithm invocation raises (which requires that the
run was not already aborted at the first checkpoint), the exception
propagates out of `run()` uncaught, and neither `positionEstimated` nor
`finished` is emitted. -/
theorem run_algorithm_raise_propagates (t : TakanamiTask) (env : RunEnv)
    (hraise : env.algRaises = true) (habort : env.abortBeforeCp1 = false) :
    TakanamiTask.run t env = ([], true) := by
  simp [TakanamiTask.run, hraise, habort]

/-- Witness for `run_algorithm_raise_propagates` at a concrete input. -/
theorem run_algorithm_raise_propagates_witness :
    TakanamiTask.run ⟨⟨10, 1⟩, 2, 8, false⟩ ⟨false, false, true⟩ = ([], true) :=
  run_algorithm_raise_propagates ⟨⟨10, 1⟩, 2, 8, false⟩ ⟨false, false, true⟩
    rfl rfl

/-- Claim C10 — counterexample.  Clamping of the stored bounds is
one-sided: with `N = 10`, `fs = 1` and a stored `start = 11 > N`, the
start time handed to the algorithm is `max(0, 11)/1 = 11`, which exceeds
`N/fs = 10`, so the arguments do not always lie within `[0, N/fs]`. -/
theorem run_time_arguments_not_always_in_range :
    TakanamiTask.start_time_in_secs ⟨⟨10, 1⟩, 11, 12, false⟩ = 11 ∧
    ¬ (TakanamiTask.start_time_in_secs ⟨⟨10, 1⟩, 11, 12, false⟩ ≤
        ((10 : ℚ) / 1)) := by
  constructor
  · norm_num [TakanamiTask.start_time_in_secs]
  · norm_num [TakanamiTask.start_time_in_secs]

/-- Claim C10 — amended.  `run()` clamps the stored bounds one-sidedly:
`start_seconds = max(0, start)/fs` is always nonnegative and
`end_seconds = min(N, end)/fs` is always at most `N/fs`; the remaining
two bounds hold only under the corresponding side conditions
(`start ≤ N`, respectively `end ≥ 0`). -/
theorem run_time_arguments_clamped (t : TakanamiTask)
    (hfs : 0 < t.record.fs) :
    0 ≤ t.start_time_in_secs ∧
    t.end_time_in_secs ≤ (t.record.signalLength : ℚ) / t.record.fs ∧
    (t.start ≤ (t.record.signalLength : ℚ) →
      t.start_time_in_secs ≤ (t.record.signalLength : ℚ) / t.record.fs) ∧
    (0 ≤ t.«end» → 0 ≤ t.end_time_in_secs) := by
  refine ⟨?_, ?_, ?_, ?_⟩
  · exact div_nonneg (le_max_left 0 t.start) hfs.le
  · exact div_le_div_of_nonneg_right
      (min_le_left (t.record.signalLength : ℚ) t.«end») hfs.le |>.trans_eq rfl
  · intro h
    exact div_le_div_of_nonneg_right
      (max_le (Nat.cast_nonneg _) h) hfs.le |>.trans_eq rfl
  · intro h
    exact div_nonneg (le_min (Nat.cast_nonneg _) h) hfs.le

/-- Witness for `run_time_arguments_clamped` at a concrete input. -/
theorem run_time_arguments_clamped_witness :
    0 ≤ TakanamiTask.start_time_in_secs ⟨⟨10, 1⟩, 2, 8, false⟩ ∧
    TakanamiTask.end_time_in_secs ⟨⟨10, 1⟩, 2, 8, false⟩ ≤ ((10 : ℕ) : ℚ) / 1 := by
  have h := run_time_arguments_clamped ⟨⟨10, 1⟩, 2, 8, false⟩ (by norm_num)
  exact ⟨h.1, h.2.1⟩

/-- A seismic event as the dialog reads it: only its `time` field (a
sample index) is consumed. -/
structure SeismicEvent where
  time : ℤ
deriving DecidableEq, Repr

/-- The state of a `TakanamiDialog` relevant to the claims: the record,
the optional event being refined, the stored window bounds `_start` and
`_end` (in samples; rationals because `set_margin` can assign
non-integer values), the current `event_time` estimate, and the spinbox
time values (in milliseconds): displayed time, minimum and maximum for
each of the two spinboxes, plus the arrival-time label. -/
structure DialogState where
  record : Record
  seismic_event : Option SeismicEvent
  _start : ℚ
  _end : ℚ
  event_time : ℤ
  start_spin_time : ℚ
  end_spin_time : ℚ
  start_min : ℚ
  start_max : ℚ
  end_min : ℚ
  end_max : ℚ
  position_label_msecs : ℚ
deriving DecidableEq, Repr

/-- Writes `save_event` can issue against the document (lines 240-249):
`editEvent` on the pre-existing event or `createEvent`.  The
method/mode/status constants live in `eqpickertool.picking.record`;
their exact values are irrelevant here, so they are modelled as tags. -/
inductive DocAction where
  | editEvent (event : SeismicEvent) (time : ℤ)
      (method mode status : String)
  | createEvent (time : ℤ) (method mode status : String)
deriving DecidableEq, Repr

/-- Tag for `rc.method_takanami`. -/
def method_takanami : String := "method_takanami"

/-- Tag for `rc.mode_automatic`. -/
def mode_automatic : String := "mode_automatic"

/-- Tag for `rc.status_reported`. -/
def status_reported : String := "status_reported"

/-- `TakanamiDialog.save_event` (lines 236-249), returned as the list of
document writes it performs. -/
def save_event (st : DialogState) : List DocAction :=
  match st.seismic_event with
  | some ev =>
      if ev.time ≠ st.event_time then
        [DocAction.editEvent ev st.event_time
          method_takanami mode_automatic status_reported]
      else []
  | none =>
      [DocAction.createEvent st.event_time
        method_takanami mode_automatic status_reported]

/-- `TakanamiDialog.set_margin` (lines 251-264).  Raises on a
non-positive margin; otherwise recomputes the window symmetrically
around `event_time` with effective margin
`max(MINIMUM_MARGIN_IN_SECS * fs, margin)`, clamped to `[0, N]`, and
sets the two spinboxes to display the new bounds.  (The only call site,
`load_settings`, runs before the spinbox change signals are connected,
so the `setTime` calls trigger no handler re-entry.) -/
def set_margin (st : DialogState) (margin : ℚ) : Except String DialogState :=
  if margin ≤ 0 then Except.error "margin must be a positive value"
  else
    let m := max (MINIMUM_MARGIN_IN_SECS * st.record.fs) margin
    let s := max 0 ((st.event_time : ℚ) - m)
    let e := min (st.record.signalLength : ℚ) ((st.event_time : ℚ) + m)
    Except.ok { st with
      _start := s
      _end := e
      start_spin_time := s * 1000 / st.record.fs
      end_spin_time := e * 1000 / st.record.fs }

/-- `TakanamiDialog.on_start_point_changed` (lines 198-205), invoked
with the new spinbox time expressed in milliseconds. -/
def on_start_point_changed (st : DialogState) (msecs : ℤ) : DialogState :=
  let t_start : ℤ := pyInt (max 0 ((msecs : ℚ) / 1000 * st.record.fs))
  if st._start ≠ (t_start : ℚ) then
    { st with
      _start := (t_start : ℚ)
      end_min := (msecs : ℚ) + MINIMUM_MARGIN_IN_SECS * 1000 }
  else st

/-- `TakanamiDialog.on_end_point_changed` (lines 207-215). -/
def on_end_point_changed (st : DialogState) (msecs : ℤ) : DialogState :=
  let t_end : ℤ := pyInt (min (st.record.signalLength : ℚ)
    ((msecs : ℚ) / 1000 * st.record.fs))
  if st._end ≠ (t_end : ℚ) then
    { st with
      _end := (t_end : ℚ)
      start_max := (msecs : ℚ) - MINIMUM_MARGIN_IN_SECS * 1000 }
  else st

/-- A user edit of the start spinbox to time `msecs`: the widget stores
the new displayed value, then emits `timeChanged`, invoking the
handler. -/
def edit_start (st : DialogState) (msecs : ℤ) : DialogState :=
  on_start_point_changed { st with start_spin_time := (msecs : ℚ) } msecs

/-- A user edit of the end spinbox to time `msecs`. -/
def edit_end (st : DialogState) (msecs : ℤ) : DialogState :=
  on_end_point_changed { st with end_spin_time := (msecs : ℚ) } msecs

/-- `TakanamiDialog.on_position_estimated` (lines 217-225): adopts the
task result as the new `event_time` and refreshes the arrival-time
label; the `aic` curve and `n0_aic` index are only used for the
diagnostic plot, which is outside the model. -/
def on_position_estimated (st : DialogState) (time : ℤ)
    (aic : List ℚ) (n0_aic : ℤ) : DialogState :=
  { st with
    event_time := time
    position_label_msecs := (time : ℚ) * 1000 / st.record.fs }

/-- The event time `TakanamiDialog.__init__` starts from (lines
116-119): the pre-existing event time, or the window midpoint
`_start + int((_end - _start)/2)` (Python 2 floor division). -/
def initial_event_time (s e : ℤ) : Option SeismicEvent → ℤ
  | none => s + (e - s).fdiv 2
  | some ev => ev.time

/-- Conversion of a time in seconds to a sample index,
`int(t * self.record.fs)` (lines 105-106). -/
def toSampleIndex (record : Record) (t : ℚ) : ℤ :=
  pyInt (t * record.fs)

/-- The persisted default margin in samples,
`int(float(settings.value('takanami_margin', 5.0)) * fs)` (lines
231-232); `takanami_margin` is the externally stored settings value,
defaulting to `5.0` seconds. -/
def default_margin (record : Record) (takanami_margin : ℚ) : ℤ :=
  pyInt (takanami_margin * record.fs)

/-- `time_in_msecs = int((len(record.signal) * 1000.0) / fs)` (lines
181-182): the full signal duration in milliseconds. -/
def total_time_in_msecs (record : Record) : ℤ :=
  pyInt ((record.signalLength : ℚ) * 1000 / record.fs)

/-- The dialog state after the validated assignments of `__init__` and
the widget initialization of `_init_ui` (lines 180-188), before
`load_settings` recomputes the window. -/
def initialDialogState (record : Record) (t_start t_end : ℚ)
    (seismic_event : Option SeismicEvent) : DialogState :=
  { record := record
    seismic_event := seismic_event
    _start := (toSampleIndex record t_start : ℚ)
    _end := (toSampleIndex record t_end : ℚ)
    event_time := initial_event_time (toSampleIndex record t_start)
      (toSampleIndex record t_end) seismic_event
    start_spin_time := 0
    end_spin_time := (total_time_in_msecs record : ℚ)
    start_min := 0
    start_max := (total_time_in_msecs record : ℚ) -
      MINIMUM_MARGIN_IN_SECS * 1000
    end_min := MINIMUM_MARGIN_IN_SECS * 1000
    end_max := (total_time_in_msecs record : ℚ)
    position_label_msecs := 0 }

/-- `TakanamiDialog.__init__` (lines 99-138), restricted to the state
the claims are about.  Converts the time bounds to sample indices,
validates them, builds the initial state, and finally — via
`load_settings` (lines 227-234) — applies `set_margin` with the
persisted default margin.  The spinbox change signals are connected
only after `load_settings` runs, so no handler fires during
construction. -/
def TakanamiDialog.init (record : Record) (t_start t_end : ℚ)
    (seismic_event : Option SeismicEvent) (takanami_margin : ℚ) :
    Except String DialogState :=
  if ¬ (0 ≤ toSampleIndex record t_start ∧
      toSampleIndex record t_start < (record.signalLength : ℤ)) then
    Except.error "Invalid t_start value"
  else if ¬ (0 ≤ toSampleIndex record t_end ∧
      toSampleIndex record t_end < (record.signalLength : ℤ)) then
    Except.error "Invalid t_end value"
  else if ((toSampleIndex record t_end : ℚ) -
      (toSampleIndex record t_start : ℚ)) <
      MINIMUM_MARGIN_IN_SECS * record.fs then
    Except.error "Distance between t_start and t_end must be at least of 0.5 seconds"
  else if ¬ (toSampleIndex record t_start <
        initial_event_time (toSampleIndex record t_start)
          (toSampleIndex record t_end) seismic_event ∧
      initial_event_time (toSampleIndex record t_start)
          (toSampleIndex record t_end) seismic_event <
        toSampleIndex record t_end) then
    Except.error "Event time must be a value between t-start and t_end"
  else
    set_margin (initialDialogState record t_start t_end seismic_event)
      ((default_margin record takanami_margin : ℤ) : ℚ)

/-- The SignalWindow invariant claimed by the specification:
`0 ≤ start < N`, `0 ≤ end < N`, `end > start`,
`(end - start)/fs ≥ MINIMUM_MARGIN_IN_SECS`. -/
def SignalWindowInvariant (st : DialogState) : Prop :=
  0 ≤ st._start ∧ st._start < (st.record.signalLength : ℚ) ∧
  0 ≤ st._end ∧ st._end < (st.record.signalLength : ℚ) ∧
  st._start < st._end ∧
  MINIMUM_MARGIN_IN_SECS ≤ (st._end - st._start) / st.record.fs

instance (st : DialogState) : Decidable (SignalWindowInvariant st) := by
  unfold SignalWindowInvariant; infer_instance

/-- The window invariant the code actually maintains: as the claimed one
but with `end ≤ N` in place of the two strict upper bounds. -/
def RelaxedWindowInvariant (st : DialogState) : Prop :=
  0 ≤ st._start ∧ st._start < st._end ∧
  st._end ≤ (st.record.signalLength : ℚ) ∧
  MINIMUM_MARGIN_IN_SECS ≤ (st._end - st._start) / st.record.fs

instance (st : DialogState) : Decidable (RelaxedWindowInvariant st) := by
  unfold RelaxedWindowInvariant; infer_instance

/-- The EventTime invariant: `start < event_time < end`. -/
def EventTimeInvariant (st : DialogState) : Prop :=
  st._start < (st.event_time : ℚ) ∧ (st.event_time : ℚ) < st._end

instance (st : DialogState) : Decidable (EventTimeInvariant st) := by
  unfold EventTimeInvariant; infer_instance


/-- Characterization of a successful `set_margin` call. -/
lemma set_margin_ok_spec (st : DialogState) (m : ℚ) (hm : 0 < m) :
    set_margin st m = Except.ok { st with
      _start := max 0 ((st.event_time : ℚ) -
        max (MINIMUM_MARGIN_IN_SECS * st.record.fs) m)
      _end := min (st.record.signalLength : ℚ) ((st.event_time : ℚ) +
        max (MINIMUM_MARGIN_IN_SECS * st.record.fs) m)
      start_spin_time := max 0 ((st.event_time : ℚ) -
        max (MINIMUM_MARGIN_IN_SECS * st.record.fs) m) * 1000 / st.record.fs
      end_spin_time := min (st.record.signalLength : ℚ) ((st.event_time : ℚ) +
        max (MINIMUM_MARGIN_IN_SECS * st.record.fs) m) * 1000 / st.record.fs } := by
  rw [set_margin, if_neg (not_le.mpr hm)]

/-- Inversion of a successful `set_margin` call. -/
lemma set_margin_ok_inv {st st' : DialogState} {m : ℚ}
    (h : set_margin st m = Except.ok st') :
    0 < m ∧ st' = { st with
      _start := max 0 ((st.event_time : ℚ) -
        max (MINIMUM_MARGIN_IN_SECS * st.record.fs) m)
      _end := min (st.record.signalLength : ℚ) ((st.event_time : ℚ) +
        max (MINIMUM_MARGIN_IN_SECS * st.record.fs) m)
      start_spin_time := max 0 ((st.event_time : ℚ) -
        max (MINIMUM_MARGIN_IN_SECS * st.record.fs) m) * 1000 / st.record.fs
      end_spin_time := min (st.record.signalLength : ℚ) ((st.event_time : ℚ) +
        max (MINIMUM_MARGIN_IN_SECS * st.record.fs) m) * 1000 / st.record.fs } := by
  by_cases hm : m ≤ 0
  · rw [set_margin, if_pos hm] at h
    exact absurd h (by simp)
  · rw [set_margin, if_neg hm] at h
    injection h with h
    exact ⟨not_le.mp hm, h.symm⟩

/-- A successful `set_margin` call establishes the relaxed window
invariant and the event-time invariant, provided the sample rate is
positive, the minimum margin fits in the signal, and the event time
lies strictly inside `(0, N)`. -/
lemma set_margin_preserves (st st' : DialogState) (m : ℚ)
    (hfs : 0 < st.record.fs)
    (hN : MINIMUM_MARGIN_IN_SECS * st.record.fs ≤ (st.record.signalLength : ℚ))
    (het0 : 0 < (st.event_time : ℚ))
    (hetN : (st.event_time : ℚ) < (st.record.signalLength : ℚ))
    (h : set_margin st m = Except.ok st') :
    RelaxedWindowInvariant st' ∧ EventTimeInvariant st' ∧
    st'.event_time = st.event_time ∧ st'.record = st.record ∧
    st'.seismic_event = st.seismic_event := by
  obtain ⟨hm, rfl⟩ := set_margin_ok_inv h
  have hk : 0 < MINIMUM_MARGIN_IN_SECS * st.record.fs := by
    have hmin : (0 : ℚ) < MINIMUM_MARGIN_IN_SECS := by
      norm_num [MINIMUM_MARGIN_IN_SECS]
    exact mul_pos hmin hfs
  have hkM : MINIMUM_MARGIN_IN_SECS * st.record.fs ≤
      max (MINIMUM_MARGIN_IN_SECS * st.record.fs) m := le_max_left _ _
  have hM0 : 0 < max (MINIMUM_MARGIN_IN_SECS * st.record.fs) m :=
    lt_of_lt_of_le hk hkM
  have hstart_lt : max 0 ((st.event_time : ℚ) -
      max (MINIMUM_MARGIN_IN_SECS * st.record.fs) m) < (st.event_time : ℚ) :=
    max_lt het0 (by linarith)
  have hlt_end : (st.event_time : ℚ) < min (st.record.signalLength : ℚ)
      ((st.event_time : ℚ) + max (MINIMUM_MARGIN_IN_SECS * st.record.fs) m) :=
    lt_min hetN (by linarith)
  have h0start : (0 : ℚ) ≤ max 0 ((st.event_time : ℚ) -
      max (MINIMUM_MARGIN_IN_SECS * st.record.fs) m) := le_max_left _ _
  have hendN : min (st.record.signalLength : ℚ) ((st.event_time : ℚ) +
      max (MINIMUM_MARGIN_IN_SECS * st.record.fs) m) ≤
      (st.record.signalLength : ℚ) := min_le_left _ _
  have hwidth : MINIMUM_MARGIN_IN_SECS * st.record.fs ≤
      min (st.record.signalLength : ℚ) ((st.event_time : ℚ) +
        max (MINIMUM_MARGIN_IN_SECS * st.record.fs) m) -
      max 0 ((st.event_time : ℚ) -
        max (MINIMUM_MARGIN_IN_SECS * st.record.fs) m) := by
    rcases le_total ((st.event_time : ℚ) -
        max (MINIMUM_MARGIN_IN_SECS * st.record.fs) m) 0 with h1 | h1
    · rw [max_eq_left h1]
      have hmin2 : MINIMUM_MARGIN_IN_SECS * st.record.fs ≤
          min (st.record.signalLength : ℚ) ((st.event_time : ℚ) +
            max (MINIMUM_MARGIN_IN_SECS * st.record.fs) m) :=
        le_min hN (by linarith)
      linarith
    · rw [max_eq_right h1]
      rcases le_total ((st.event_time : ℚ) +
          max (MINIMUM_MARGIN_IN_SECS * st.record.fs) m)
          (st.record.signalLength : ℚ) with h2 | h2
      · rw [min_eq_right h2]; linarith
      · rw [min_eq_left h2]; linarith
  refine ⟨⟨h0start, lt_trans hstart_lt hlt_end, hendN, ?_⟩,
    ⟨hstart_lt, hlt_end⟩, rfl, rfl, rfl⟩
  rw [le_div_iff hfs]
  linarith

/-- A successful construction establishes both invariants, and records
the inputs (event, record) and the initial event time in the state. -/
lemma init_ok_invariants {record : Record} {t_start t_end takanami_margin : ℚ}
    {ev : Option SeismicEvent} {st : DialogState} (hfs : 0 < record.fs)
    (h : TakanamiDialog.init record t_start t_end ev takanami_margin =
      Except.ok st) :
    RelaxedWindowInvariant st ∧ EventTimeInvariant st ∧
    st.record = record ∧ st.seismic_event = ev ∧
    st.event_time = initial_event_time (toSampleIndex record t_start)
      (toSampleIndex record t_end) ev := by
  rw [TakanamiDialog.init] at h
  split_ifs at h with h1 h2 h3 h4
  obtain ⟨hs0, hsN⟩ := h1
  obtain ⟨he0, heN⟩ := h2
  have hwidth : MINIMUM_MARGIN_IN_SECS * record.fs ≤
      ((toSampleIndex record t_end : ℚ) - (toSampleIndex record t_start : ℚ)) :=
    not_lt.mp h3
  obtain ⟨hset, hete⟩ := h4
  have het0 : (0 : ℚ) < ((initial_event_time (toSampleIndex record t_start)
      (toSampleIndex record t_end) ev : ℤ) : ℚ) := by
    exact_mod_cast lt_of_le_of_lt hs0 hset
  have hetN : ((initial_event_time (toSampleIndex record t_start)
      (toSampleIndex record t_end) ev : ℤ) : ℚ) <
      (record.signalLength : ℚ) := by
    exact_mod_cast lt_trans hete heN
  have hN : MINIMUM_MARGIN_IN_SECS * record.fs ≤ (record.signalLength : ℚ) := by
    have hc1 : ((toSampleIndex record t_end : ℤ) : ℚ) <
        ((record.signalLength : ℕ) : ℚ) := by exact_mod_cast heN
    have hc2 : (0 : ℚ) ≤ ((toSampleIndex record t_start : ℤ) : ℚ) := by
      exact_mod_cast hs0
    linarith
  have P := set_margin_preserves (initialDialogState record t_start t_end ev)
    st _ hfs hN het0 hetN h
  exact ⟨P.1, P.2.1, P.2.2.2.1, P.2.2.2.2, P.2.2.1⟩
/-- Claim C2: `set_margin(m)` raises for `m ≤ 0`; for `m > 0` the window
becomes `start = max(0, event_time - M)`, `end = min(N, event_time + M)`
with effective margin `M = max(MINIMUM_MARGIN_IN_SECS * fs, m)`, and
`event_time` is unchanged. -/
theorem set_margin_spec (st : DialogState) (m : ℚ) :
    (m ≤ 0 → set_margin st m = Except.error "margin must be a positive value") ∧
    (0 < m → ∃ st', set_margin st m = Except.ok st' ∧
      st'._start = max 0 ((st.event_time : ℚ) -
        max (MINIMUM_MARGIN_IN_SECS * st.record.fs) m) ∧
      st'._end = min (st.record.signalLength : ℚ) ((st.event_time : ℚ) +
        max (MINIMUM_MARGIN_IN_SECS * st.record.fs) m) ∧
      st'.event_time = st.event_time) := by
  constructor
  · intro hm
    rw [set_margin, if_pos hm]
  · intro hm
    exact ⟨_, set_margin_ok_spec st m hm, rfl, rfl, rfl⟩

/-- Witness for `set_margin_spec` at a concrete state: `N = 100`,
`fs = 10`, `event_time = 50`, margin `60` (so `M = max(5, 60) = 60`). -/
theorem set_margin_spec_witness :
    set_margin ⟨⟨100, 10⟩, none, 40, 60, 50, 0, 0, 0, 0, 0, 0, 0⟩ (-1) =
      Except.error "margin must be a positive value" ∧
    ∃ st', set_margin ⟨⟨100, 10⟩, none, 40, 60, 50, 0, 0, 0, 0, 0, 0, 0⟩ 60 =
        Except.ok st' ∧
      st'._start = max 0 ((50 : ℚ) - max (MINIMUM_MARGIN_IN_SECS * 10) 60) ∧
      st'._end = min ((100 : ℕ) : ℚ) ((50 : ℚ) +
        max (MINIMUM_MARGIN_IN_SECS * 10) 60) ∧
      st'.event_time = 50 :=
  ⟨(set_margin_spec ⟨⟨100, 10⟩, none, 40, 60, 50, 0, 0, 0, 0, 0, 0, 0⟩
      (-1)).1 (by norm_num),
   (set_margin_spec ⟨⟨100, 10⟩, none, 40, 60, 50, 0, 0, 0, 0, 0, 0, 0⟩
      60).2 (by norm_num)⟩

/-- Claim C4: committing when refining a pre-existing event whose time
equals the current estimate performs no document write; a differing time
performs exactly one `editEvent` with method Takanami, mode automatic,
status reported; with no pre-existing event, exactly one `createEvent`
with the same metadata. -/
theorem save_event_spec (st : DialogState) (ev : SeismicEvent) :
    (st.seismic_event = some ev → ev.time = st.event_time →
      save_event st = []) ∧
    (st.seismic_event = some ev → ev.time ≠ st.event_time →
      save_event st = [DocAction.editEvent ev st.event_time
        method_takanami mode_automatic status_reported]) ∧
    (st.seismic_event = none →
      save_event st = [DocAction.createEvent st.event_time
        method_takanami mode_automatic status_reported]) := by
  refine ⟨?_, ?_, ?_⟩
  · intro hev heq
    simp [save_event, hev, heq]
  · intro hev hne
    simp [save_event, hev, hne]
  · intro hev
    simp [save_event, hev]

/-- Witness for `save_event_spec` at concrete states. -/
theorem save_event_spec_witness :
    save_event ⟨⟨100, 10⟩, some ⟨50⟩, 40, 60, 50, 0, 0, 0, 0, 0, 0, 0⟩ = [] ∧
    save_event ⟨⟨100, 10⟩, some ⟨42⟩, 40, 60, 50, 0, 0, 0, 0, 0, 0, 0⟩ =
      [DocAction.editEvent ⟨42⟩ 50
        method_takanami mode_automatic status_reported] ∧
    save_event ⟨⟨100, 10⟩, none, 40, 60, 50, 0, 0, 0, 0, 0, 0, 0⟩ =
      [DocAction.createEvent 50
        method_takanami mode_automatic status_reported] :=
  ⟨(save_event_spec ⟨⟨100, 10⟩, some ⟨50⟩, 40, 60, 50, 0, 0, 0, 0, 0, 0, 0⟩
      ⟨50⟩).1 rfl rfl,
   (save_event_spec ⟨⟨100, 10⟩, some ⟨42⟩, 40, 60, 50, 0, 0, 0, 0, 0, 0, 0⟩
      ⟨42⟩).2.1 rfl (by decide),
   (save_event_spec ⟨⟨100, 10⟩, none, 40, 60, 50, 0, 0, 0, 0, 0, 0, 0⟩
      ⟨0⟩).2.2 rfl⟩

/-- Claim C6: on receiving an estimation result, the session replaces
`event_time` with the result's time; the window bounds `_start` and
`_end` are left unchanged — no window recomputation happens on result
arrival. -/
theorem on_position_estimated_frame (st : DialogState) (time : ℤ)
    (aic : List ℚ) (n0_aic : ℤ) :
    (on_position_estimated st time aic n0_aic).event_time = time ∧
    (on_position_estimated st time aic n0_aic)._start = st._start ∧
    (on_position_estimated st time aic n0_aic)._end = st._end := by
  refine ⟨rfl, rfl, rfl⟩

/-- Evaluation of the specification's example construction:
`N = 10000`, `fs = 100`, window 4-6 s (samples 400-600), no
pre-existing event, persisted default margin 5 s (500 samples).  The
resulting window is recomputed to `(0, 1000)` around event time 500. -/
lemma init_sample_eval :
    TakanamiDialog.init ⟨10000, 100⟩ 4 6 none 5 =
      Except.ok ⟨⟨10000, 100⟩, none, 0, 1000, 500, 0, 10000, 0, 99500,
        500, 100000, 0⟩ := by
  have hts : toSampleIndex ⟨10000, 100⟩ 4 = 400 := by
    rw [toSampleIndex, pyInt_eq]; norm_num
  have hte : toSampleIndex ⟨10000, 100⟩ 6 = 600 := by
    rw [toSampleIndex, pyInt_eq]; norm_num
  have het : initial_event_time 400 600 none = 500 := by
    simp only [initial_event_time]
    norm_num [Int.fdiv]
  have hdm : default_margin ⟨10000, 100⟩ 5 = 500 := by
    rw [default_margin, pyInt_eq]; norm_num
  have htm : total_time_in_msecs ⟨10000, 100⟩ = 100000 := by
    rw [total_time_in_msecs, pyInt_eq]; norm_num
  rw [TakanamiDialog.init, hts, hte, het, hdm,
    if_neg (not_not_intro (by norm_num)),
    if_neg (not_not_intro (by norm_num)),
    if_neg (by norm_num [MINIMUM_MARGIN_IN_SECS]),
    if_neg (not_not_intro (by norm_num)),
    set_margin_ok_spec _ _ (by norm_num)]
  norm_num [initialDialogState, hts, hte, het, htm,
    MINIMUM_MARGIN_IN_SECS, max_def, min_def, DialogState.mk.injEq]

/-- Evaluation of `set_margin` with margin 777 on the state produced by
`init_sample_eval`. -/
lemma set_margin_sample_eval :
    set_margin ⟨⟨10000, 100⟩, none, 0, 1000, 500, 0, 10000, 0, 99500,
        500, 100000, 0⟩ 777 =
      Except.ok ⟨⟨10000, 100⟩, none, 0, 1277, 500, 0, 12770, 0, 99500,
        500, 100000, 0⟩ := by
  rw [set_margin_ok_spec _ _ (by norm_num)]
  norm_num [MINIMUM_MARGIN_IN_SECS, max_def, min_def, DialogState.mk.injEq]

/-- Claim C3 — counterexample.  With `N = 10000`, `fs = 100`,
`t_start = 4 s`, `t_end = 6 s` (samples 400 and 600) and no
pre-existing event, construction succeeds, but the resulting window is
not `(400, 600)`: `__init__` ends by calling `load_settings`, which
applies `set_margin` with the persisted default margin (5 s = 500
samples), recomputing the window to `(0, 1000)` around the event time
500.  So the start/end fields do not equal the validated inputs. -/
theorem init_overwrites_window :
    TakanamiDialog.init ⟨10000, 100⟩ 4 6 none 5 =
      Except.ok ⟨⟨10000, 100⟩, none, 0, 1000, 500, 0, 10000, 0, 99500,
        500, 100000, 0⟩ ∧
    (0 : ℚ) ≠ 400 ∧ (1000 : ℚ) ≠ 600 :=
  ⟨init_sample_eval, by norm_num, by norm_num⟩

/-- Claim C3 — amended.  For inputs whose converted sample indices
satisfy the claimed invariants (`0 ≤ start < end < N`, width at least
the minimum margin, event time strictly inside) and whose persisted
default margin converts to a positive sample count, construction
succeeds; the resulting state carries the input event (and the claimed
event time: the pre-existing event's time, or the window midpoint), but
its start/end fields are immediately recomputed around the event time
by `set_margin` with the default margin, rather than remaining equal to
the inputs.  If any one of the claimed invariants fails, construction
fails with an error and no state is produced. -/
theorem init_validation (record : Record)
    (t_start t_end takanami_margin : ℚ) (ev : Option SeismicEvent)
    (hfs : 0 < record.fs) :
    ((0 ≤ toSampleIndex record t_start ∧
      toSampleIndex record t_start < toSampleIndex record t_end ∧
      toSampleIndex record t_end < (record.signalLength : ℤ) ∧
      MINIMUM_MARGIN_IN_SECS * record.fs ≤
        ((toSampleIndex record t_end : ℚ) -
          (toSampleIndex record t_start : ℚ)) ∧
      toSampleIndex record t_start <
        initial_event_time (toSampleIndex record t_start)
          (toSampleIndex record t_end) ev ∧
      initial_event_time (toSampleIndex record t_start)
          (toSampleIndex record t_end) ev < toSampleIndex record t_end ∧
      0 < default_margin record takanami_margin) →
      ∃ st, TakanamiDialog.init record t_start t_end ev takanami_margin =
          Except.ok st ∧
        st.event_time = initial_event_time (toSampleIndex record t_start)
          (toSampleIndex record t_end) ev ∧
        st.seismic_event = ev ∧
        st._start = max 0 ((st.event_time : ℚ) -
          max (MINIMUM_MARGIN_IN_SECS * record.fs)
            ((default_margin record takanami_margin : ℤ) : ℚ)) ∧
        st._end = min (record.signalLength : ℚ) ((st.event_time : ℚ) +
          max (MINIMUM_MARGIN_IN_SECS * record.fs)
            ((default_margin record takanami_margin : ℤ) : ℚ))) ∧
    (¬ (0 ≤ toSampleIndex record t_start ∧
      toSampleIndex record t_start < toSampleIndex record t_end ∧
      toSampleIndex record t_end < (record.signalLength : ℤ) ∧
      MINIMUM_MARGIN_IN_SECS * record.fs ≤
        ((toSampleIndex record t_end : ℚ) -
          (toSampleIndex record t_start : ℚ)) ∧
      toSampleIndex record t_start <
        initial_event_time (toSampleIndex record t_start)
          (toSampleIndex record t_end) ev ∧
      initial_event_time (toSampleIndex record t_start)
          (toSampleIndex record t_end) ev < toSampleIndex record t_end) →
      ∃ msg, TakanamiDialog.init record t_start t_end ev takanami_margin =
        Except.error msg) := by
  constructor
  · rintro ⟨hs0, hse, heN, hwidth, hset, hete, hdm⟩
    rw [TakanamiDialog.init,
      if_neg (not_not_intro ⟨hs0, lt_trans hse heN⟩),
      if_neg (not_not_intro ⟨le_trans hs0 hse.le, heN⟩),
      if_neg (not_lt.mpr hwidth),
      if_neg (not_not_intro ⟨hset, hete⟩)]
    exact ⟨_, set_margin_ok_spec _ _ (by exact_mod_cast hdm),
      rfl, rfl, rfl, rfl⟩
  · intro hinv
    by_cases hc1 : 0 ≤ toSampleIndex record t_start ∧
        toSampleIndex record t_start < (record.signalLength : ℤ)
    · by_cases hc2 : 0 ≤ toSampleIndex record t_end ∧
          toSampleIndex record t_end < (record.signalLength : ℤ)
      · by_cases hc3 : ((toSampleIndex record t_end : ℚ) -
            (toSampleIndex record t_start : ℚ)) <
            MINIMUM_MARGIN_IN_SECS * record.fs
        · exact ⟨_, by
            rw [TakanamiDialog.init, if_neg (not_not_intro hc1),
              if_neg (not_not_intro hc2), if_pos hc3]⟩
        · by_cases hc4 : toSampleIndex record t_start <
              initial_event_time (toSampleIndex record t_start)
                (toSampleIndex record t_end) ev ∧
              initial_event_time (toSampleIndex record t_start)
                (toSampleIndex record t_end) ev < toSampleIndex record t_end
          · exfalso
            apply hinv
            have hwidth : MINIMUM_MARGIN_IN_SECS * record.fs ≤
                ((toSampleIndex record t_end : ℚ) -
                  (toSampleIndex record t_start : ℚ)) := not_lt.mp hc3
            have hk : (0 : ℚ) < MINIMUM_MARGIN_IN_SECS * record.fs :=
              mul_pos (by norm_num [MINIMUM_MARGIN_IN_SECS]) hfs
            have hse : toSampleIndex record t_start <
                toSampleIndex record t_end := by
              have : ((toSampleIndex record t_start : ℤ) : ℚ) <
                  ((toSampleIndex record t_end : ℤ) : ℚ) := by linarith
              exact_mod_cast this
            exact ⟨hc1.1, hse, hc2.2, hwidth, hc4.1, hc4.2⟩
          · exact ⟨_, by
              rw [TakanamiDialog.init, if_neg (not_not_intro hc1),
                if_neg (not_not_intro hc2), if_neg hc3, if_pos hc4]⟩
      · exact ⟨_, by
          rw [TakanamiDialog.init, if_neg (not_not_intro hc1), if_pos hc2]⟩
    · exact ⟨_, by rw [TakanamiDialog.init, if_pos hc1]⟩

/-- Witness for `init_validation`: the valid scenario of the
specification (`N = 10000`, `fs = 100`, window 4-6 s, default margin
5 s) constructs successfully with event time 500; shrinking the window
to 4-4.1 s (10 samples, less than the 50-sample minimum) fails. -/
theorem init_validation_witness :
    (TakanamiDialog.init ⟨10000, 100⟩ 4 6 none 5).map
      (fun st => st.event_time) = Except.ok 500 ∧
    (TakanamiDialog.init ⟨10000, 100⟩ 4 (41 / 10) none 5).toOption = none := by
  have hts : toSampleIndex ⟨10000, 100⟩ 4 = 400 := by
    rw [toSampleIndex, pyInt_eq]; norm_num
  have hte : toSampleIndex ⟨10000, 100⟩ 6 = 600 := by
    rw [toSampleIndex, pyInt_eq]; norm_num
  have hte2 : toSampleIndex ⟨10000, 100⟩ (41 / 10) = 410 := by
    rw [toSampleIndex, pyInt_eq]; norm_num
  have het : initial_event_time 400 600 none = 500 := by
    simp only [initial_event_time]
    norm_num [Int.fdiv]
  have hdm : default_margin ⟨10000, 100⟩ 5 = 500 := by
    rw [default_margin, pyInt_eq]; norm_num
  constructor
  · obtain ⟨st, hst, hev, -, -, -⟩ :=
      (init_validation ⟨10000, 100⟩ 4 6 5 none (by norm_num)).1
        (by rw [hts, hte, het, hdm]
            norm_num [MINIMUM_MARGIN_IN_SECS])
    rw [hst]
    simp only [Except.map]
    rw [hev, hts, hte, het]
  · obtain ⟨msg, hmsg⟩ :=
      (init_validation ⟨10000, 100⟩ 4 (41 / 10) 5 none (by norm_num)).2
        (by rw [hts, hte2]
            norm_num [MINIMUM_MARGIN_IN_SECS])
    rw [hmsg]
    rfl

/-- Claim C5 — counterexample.  With `fs = 1` and a stored start of
sample `0`, an edit of the start spinbox to the new time `100` ms
converts to sample `int(0.1) = 0`, equal to the stored start, so the
handler's guard (`if self._start != t_start`, line 202) skips the
update: the end spinbox minimum stays at its previous value `500`
instead of becoming `100 + 500 = 600`.  The edit is within the spinbox
range of the state. -/
theorem edit_start_coupling_skipped :
    (edit_start ⟨⟨10, 1⟩, none, 0, 6, 3, 0, 6000, 0, 9500, 500, 10000, 0⟩
      100).end_min = 500 ∧
    (500 : ℚ) ≠ (100 : ℚ) + MINIMUM_MARGIN_IN_SECS * 1000 ∧
    (0 : ℤ) ≤ 100 ∧
    ((100 : ℚ) ≤
      (⟨⟨10, 1⟩, none, 0, 6, 3, 0, 6000, 0, 9500, 500, 10000, 0⟩ :
        DialogState).start_max) := by
  refine ⟨?_, by norm_num [MINIMUM_MARGIN_IN_SECS], by norm_num, by norm_num⟩
  have ht : pyInt (max 0 (((100 : ℤ) : ℚ) / 1000 * (1 : ℚ))) = 0 := by
    rw [pyInt_eq]; norm_num
  simp only [edit_start, on_start_point_changed]
  rw [ht]
  norm_num

/-- Claim C5 — amended.  An edit of the start bound to time `s` (in
milliseconds) whose sample conversion differs from the stored start
stores the converted sample and sets the end bound's minimum to
`s + minMargin`; an edit whose conversion equals the stored start
changes nothing beyond the displayed time.  Symmetrically for end edits
and the start bound's maximum, with `e - minMargin`.  The opposite
stored bound never changes, and repeating an identical edit is
idempotent. -/
theorem window_edit_coupling (st : DialogState) (ms : ℤ) :
    ((st._start ≠ (pyInt (max 0 ((ms : ℚ) / 1000 * st.record.fs)) : ℚ)) →
      (edit_start st ms)._start =
        (pyInt (max 0 ((ms : ℚ) / 1000 * st.record.fs)) : ℚ) ∧
      (edit_start st ms).end_min =
        (ms : ℚ) + MINIMUM_MARGIN_IN_SECS * 1000) ∧
    ((st._start = (pyInt (max 0 ((ms : ℚ) / 1000 * st.record.fs)) : ℚ)) →
      edit_start st ms = { st with start_spin_time := (ms : ℚ) }) ∧
    (edit_start st ms)._end = st._end ∧
    ((st._end ≠ (pyInt (min (st.record.signalLength : ℚ)
        ((ms : ℚ) / 1000 * st.record.fs)) : ℚ)) →
      (edit_end st ms)._end =
        (pyInt (min (st.record.signalLength : ℚ)
          ((ms : ℚ) / 1000 * st.record.fs)) : ℚ) ∧
      (edit_end st ms).start_max =
        (ms : ℚ) - MINIMUM_MARGIN_IN_SECS * 1000) ∧
    ((st._end = (pyInt (min (st.record.signalLength : ℚ)
        ((ms : ℚ) / 1000 * st.record.fs)) : ℚ)) →
      edit_end st ms = { st with end_spin_time := (ms : ℚ) }) ∧
    (edit_end st ms)._start = st._start ∧
    edit_start (edit_start st ms) ms = edit_start st ms ∧
    edit_end (edit_end st ms) ms = edit_end st ms := by
  refine ⟨?_, ?_, ?_, ?_, ?_, ?_, ?_, ?_⟩
  · intro h
    simp [edit_start, on_start_point_changed, h]
  · intro h
    simp [edit_start, on_start_point_changed, h]
  · by_cases h : st._start =
        (pyInt (max 0 ((ms : ℚ) / 1000 * st.record.fs)) : ℚ) <;>
      simp [edit_start, on_start_point_changed, h]
  · intro h
    simp [edit_end, on_end_point_changed, h]
  · intro h
    simp [edit_end, on_end_point_changed, h]
  · by_cases h : st._end =
        (pyInt (min (st.record.signalLength : ℚ)
          ((ms : ℚ) / 1000 * st.record.fs)) : ℚ) <;>
      simp [edit_end, on_end_point_changed, h]
  · by_cases h : st._start =
        (pyInt (max 0 ((ms : ℚ) / 1000 * st.record.fs)) : ℚ) <;>
      simp [edit_start, on_start_point_changed, h]
  · by_cases h : st._end =
        (pyInt (min (st.record.signalLength : ℚ)
          ((ms : ℚ) / 1000 * st.record.fs)) : ℚ) <;>
      simp [edit_end, on_end_point_changed, h]

/-- Witness for `window_edit_coupling` at concrete inputs (`fs = 1`,
stored start `0`, stored end `6`; an edit to `2000` ms converts to
sample `2`, an edit to `100` ms converts back to sample `0`). -/
theorem window_edit_coupling_witness :
    ((edit_start ⟨⟨10, 1⟩, none, 0, 6, 3, 0, 6000, 0, 9500, 500, 10000, 0⟩
        2000)._start = ((2 : ℤ) : ℚ) ∧
      (edit_start ⟨⟨10, 1⟩, none, 0, 6, 3, 0, 6000, 0, 9500, 500, 10000, 0⟩
        2000).end_min = ((2000 : ℤ) : ℚ) + MINIMUM_MARGIN_IN_SECS * 1000) ∧
    edit_start ⟨⟨10, 1⟩, none, 0, 6, 3, 0, 6000, 0, 9500, 500, 10000, 0⟩ 100 =
      ⟨⟨10, 1⟩, none, 0, 6, 3, ((100 : ℤ) : ℚ), 6000, 0, 9500, 500, 10000, 0⟩ := by
  have h := window_edit_coupling
    ⟨⟨10, 1⟩, none, 0, 6, 3, 0, 6000, 0, 9500, 500, 10000, 0⟩ 2000
  have h2 := window_edit_coupling
    ⟨⟨10, 1⟩, none, 0, 6, 3, 0, 6000, 0, 9500, 500, 10000, 0⟩ 100
  have ht : pyInt (max 0 (((2000 : ℤ) : ℚ) / 1000 * (1 : ℚ))) = 2 := by
    rw [pyInt_eq]; norm_num
  have ht2 : pyInt (max 0 (((100 : ℤ) : ℚ) / 1000 * (1 : ℚ))) = 0 := by
    rw [pyInt_eq]; norm_num
  refine ⟨?_, ?_⟩
  · have hne : (0 : ℚ) ≠
        ((pyInt (max 0 (((2000 : ℤ) : ℚ) / 1000 * (1 : ℚ)))) : ℚ) := by
      rw [ht]; norm_num
    have hr := h.1 hne
    refine ⟨?_, hr.2⟩
    rw [hr.1]
    exact_mod_cast congrArg Int.cast ht
  · have heq : (0 : ℚ) =
        ((pyInt (max 0 (((100 : ℤ) : ℚ) / 1000 * (1 : ℚ)))) : ℚ) := by
      rw [ht2]; norm_num
    exact h2.2.1 heq

/-- Claim C7 — counterexample.  The claimed invariant (in particular
`end < N`) is not preserved: on a state with `N = 100`, `fs = 10`,
window `(40, 60)`, event time 50 — which satisfies the invariant —
`set_margin 60` produces `end = min(100, 110) = 100 = N`.  Moreover, a
user edit can break the minimum-width requirement: on a state with
`fs = 1`, window `(0, 1)` (width 1 s ≥ 0.5 s) an in-range start edit to
1400 ms stores start sample `int(1.4) = 1`, collapsing the window to
width 0. -/
theorem window_invariant_not_preserved :
    SignalWindowInvariant ⟨⟨100, 10⟩, none, 40, 60, 50, 0, 0, 0, 0, 0, 0, 0⟩ ∧
    set_margin ⟨⟨100, 10⟩, none, 40, 60, 50, 0, 0, 0, 0, 0, 0, 0⟩ 60 =
      Except.ok ⟨⟨100, 10⟩, none, 0, 100, 50, 0, 10000, 0, 0, 0, 0, 0⟩ ∧
    ¬ SignalWindowInvariant
      ⟨⟨100, 10⟩, none, 0, 100, 50, 0, 10000, 0, 0, 0, 0, 0⟩ ∧
    SignalWindowInvariant
      ⟨⟨10, 1⟩, none, 0, 1, 0, 0, 1000, 0, 9500, 500, 10000, 0⟩ ∧
    (0 : ℤ) ≤ 1400 ∧
    ((1400 : ℚ) ≤ (⟨⟨10, 1⟩, none, 0, 1, 0, 0, 1000, 0, 9500, 500,
      10000, 0⟩ : DialogState).start_max) ∧
    ¬ SignalWindowInvariant
      (edit_start ⟨⟨10, 1⟩, none, 0, 1, 0, 0, 1000, 0, 9500, 500,
        10000, 0⟩ 1400) := by
  refine ⟨?_, ?_, ?_, ?_, by norm_num, by norm_num, ?_⟩
  · norm_num [SignalWindowInvariant, MINIMUM_MARGIN_IN_SECS]
  · rw [set_margin_ok_spec _ _ (by norm_num)]
    norm_num [MINIMUM_MARGIN_IN_SECS, max_def, min_def,
      DialogState.mk.injEq]
  · norm_num [SignalWindowInvariant]
  · norm_num [SignalWindowInvariant, MINIMUM_MARGIN_IN_SECS]
  · have ht : pyInt (max 0 (((1400 : ℤ) : ℚ) / 1000 * (1 : ℚ))) = 1 := by
      rw [pyInt_eq]; norm_num
    simp only [edit_start, on_start_point_changed]
    rw [ht]
    norm_num [SignalWindowInvariant]

/-- Claim C7 — amended.  After a successful construction the relaxed
window invariant `0 ≤ start < end ≤ N ∧ (end - start)/fs ≥ 0.5` holds
(the end bound may reach `N`, so the claimed `end < N` is weakened to
`end ≤ N`); `set_margin` preserves this relaxed invariant from any
state satisfying it together with the event-time invariant.  User bound
edits guarantee only the one-sided clamp on the edited bound — the new
start is nonnegative, the new end is at most `N` — and leave the
opposite stored bound unchanged; they need not preserve the strict
ordering or the minimum-width requirement. -/
theorem window_invariant_maintained (record : Record)
    (t_start t_end takanami_margin m : ℚ) (ev : Option SeismicEvent)
    (st st' : DialogState) (ms : ℤ) :
    (0 < record.fs →
      TakanamiDialog.init record t_start t_end ev takanami_margin =
        Except.ok st →
      RelaxedWindowInvariant st) ∧
    (0 < st.record.fs → RelaxedWindowInvariant st → EventTimeInvariant st →
      set_margin st m = Except.ok st' → RelaxedWindowInvariant st') ∧
    (0 ≤ st._start → 0 ≤ (edit_start st ms)._start) ∧
    (edit_start st ms)._end = st._end ∧
    (st._end ≤ (st.record.signalLength : ℚ) →
      (edit_end st ms)._end ≤ (st.record.signalLength : ℚ)) ∧
    (edit_end st ms)._start = st._start := by
  refine ⟨?_, ?_, ?_, ?_, ?_, ?_⟩
  · intro hfs h
    exact (init_ok_invariants hfs h).1
  · intro hfs hrel heti h
    obtain ⟨h0s, hse, heN, hw⟩ := hrel
    obtain ⟨h1, h2⟩ := heti
    rw [le_div_iff hfs] at hw
    exact (set_margin_preserves st st' m hfs (by linarith) (by linarith)
      (by linarith) h).1
  · intro h0
    by_cases hc : st._start =
        (pyInt (max 0 ((ms : ℚ) / 1000 * st.record.fs)) : ℚ)
    · simpa [edit_start, on_start_point_changed, hc] using h0
    · have hp : (0 : ℚ) ≤
          (pyInt (max 0 ((ms : ℚ) / 1000 * st.record.fs)) : ℚ) := by
        exact_mod_cast pyInt_nonneg
          (le_max_left 0 ((ms : ℚ) / 1000 * st.record.fs))
      simpa [edit_start, on_start_point_changed, hc] using hp
  · by_cases hc : st._start =
        (pyInt (max 0 ((ms : ℚ) / 1000 * st.record.fs)) : ℚ) <;>
      simp [edit_start, on_start_point_changed, hc]
  · intro hEnd
    by_cases hc : st._end = (pyInt (min (st.record.signalLength : ℚ)
        ((ms : ℚ) / 1000 * st.record.fs)) : ℚ)
    · simpa [edit_end, on_end_point_changed, hc] using hEnd
    · have hq : min (st.record.signalLength : ℚ)
          ((ms : ℚ) / 1000 * st.record.fs) ≤
          (((st.record.signalLength : ℤ)) : ℚ) := by
        push_cast
        exact min_le_left _ _
      have hp2 : ((pyInt (min (st.record.signalLength : ℚ)
          ((ms : ℚ) / 1000 * st.record.fs)) : ℤ) : ℚ) ≤
          (st.record.signalLength : ℚ) := by
        exact_mod_cast pyInt_le_of_le hq
      simpa [edit_end, on_end_point_changed, hc] using hp2
  · by_cases hc : st._end = (pyInt (min (st.record.signalLength : ℚ)
        ((ms : ℚ) / 1000 * st.record.fs)) : ℚ) <;>
      simp [edit_end, on_end_point_changed, hc]

/-- Witness for `window_invariant_maintained` at concrete inputs: the
construction of `init_sample_eval` and the `set_margin` call of
`set_margin_sample_eval`, plus a start edit to 3000 ms and an end edit
to 3000 ms on the constructed state. -/
theorem window_invariant_maintained_witness :
    RelaxedWindowInvariant ⟨⟨10000, 100⟩, none, 0, 1000, 500, 0, 10000,
      0, 99500, 500, 100000, 0⟩ ∧
    RelaxedWindowInvariant ⟨⟨10000, 100⟩, none, 0, 1277, 500, 0, 12770,
      0, 99500, 500, 100000, 0⟩ ∧
    0 ≤ (edit_start ⟨⟨10000, 100⟩, none, 0, 1000, 500, 0, 10000, 0,
      99500, 500, 100000, 0⟩ 3000)._start ∧
    (edit_start ⟨⟨10000, 100⟩, none, 0, 1000, 500, 0, 10000, 0, 99500,
      500, 100000, 0⟩ 3000)._end = (1000 : ℚ) ∧
    (edit_end ⟨⟨10000, 100⟩, none, 0, 1000, 500, 0, 10000, 0, 99500,
      500, 100000, 0⟩ 3000)._end ≤ (((10000 : ℕ) : ℕ) : ℚ) ∧
    (edit_end ⟨⟨10000, 100⟩, none, 0, 1000, 500, 0, 10000, 0, 99500,
      500, 100000, 0⟩ 3000)._start = (0 : ℚ) := by
  have h := window_invariant_maintained ⟨10000, 100⟩ 4 6 5 777 none
    ⟨⟨10000, 100⟩, none, 0, 1000, 500, 0, 10000, 0, 99500, 500, 100000, 0⟩
    ⟨⟨10000, 100⟩, none, 0, 1277, 500, 0, 12770, 0, 99500, 500, 100000, 0⟩
    3000
  have hrel := h.1 (by norm_num) init_sample_eval
  refine ⟨hrel, ?_, ?_, ?_, ?_, ?_⟩
  · exact h.2.1 (by norm_num) hrel
      (by norm_num [EventTimeInvariant]) set_margin_sample_eval
  · exact h.2.2.1 (by norm_num)
  · exact h.2.2.2.1
  · exact h.2.2.2.2.1 (by norm_num)
  · exact h.2.2.2.2.2

/-- Claim C8 — counterexample.  The event-time invariant
`start < event_time < end` is not preserved by user bound edits or by
result integration: on a state with `fs = 1`, window `(0, 100)`, event
time 5, an in-range start edit to 10000 ms stores start sample 10 > 5;
and `on_position_estimated` adopts the algorithm's returned time
unchecked, so a result of `-50` lands outside the window. -/
theorem event_time_invariant_not_preserved :
    EventTimeInvariant
      ⟨⟨200, 1⟩, none, 0, 100, 5, 0, 0, 0, 199500, 500, 200000, 0⟩ ∧
    (0 : ℤ) ≤ 10000 ∧
    ((10000 : ℚ) ≤ (⟨⟨200, 1⟩, none, 0, 100, 5, 0, 0, 0, 199500, 500,
      200000, 0⟩ : DialogState).start_max) ∧
    ¬ EventTimeInvariant
      (edit_start ⟨⟨200, 1⟩, none, 0, 100, 5, 0, 0, 0, 199500, 500,
        200000, 0⟩ 10000) ∧
    ¬ EventTimeInvariant
      (on_position_estimated ⟨⟨200, 1⟩, none, 0, 100, 5, 0, 0, 0,
        199500, 500, 200000, 0⟩ (-50) [] 0) := by
  refine ⟨by norm_num [EventTimeInvariant], by norm_num, by norm_num,
    ?_, ?_⟩
  · have ht : pyInt (max 0 (((10000 : ℤ) : ℚ) / 1000 * (1 : ℚ))) = 10 := by
      rw [pyInt_eq]; norm_num
    simp only [edit_start, on_start_point_changed]
    rw [ht]
    norm_num [EventTimeInvariant]
  · norm_num [on_position_estimated, EventTimeInvariant]

/-- Claim C8 — amended.  The event-time invariant
`start < event_time < end` holds after a successful construction and is
preserved by `set_margin` from any state satisfying it together with
the relaxed window invariant.  User bound edits (which are constrained
only against the opposite bound, not the event time) and result
integration (which adopts the algorithm's returned time unchecked) need
not preserve it. -/
theorem event_time_invariant_maintained (record : Record)
    (t_start t_end takanami_margin m : ℚ) (ev : Option SeismicEvent)
    (st st' : DialogState) :
    (0 < record.fs →
      TakanamiDialog.init record t_start t_end ev takanami_margin =
        Except.ok st →
      EventTimeInvariant st) ∧
    (0 < st.record.fs → RelaxedWindowInvariant st → EventTimeInvariant st →
      set_margin st m = Except.ok st' → EventTimeInvariant st') := by
  constructor
  · intro hfs h
    exact (init_ok_invariants hfs h).2.1
  · intro hfs hrel heti h
    obtain ⟨h0s, hse, heN, hw⟩ := hrel
    obtain ⟨h1, h2⟩ := heti
    rw [le_div_iff hfs] at hw
    exact (set_margin_preserves st st' m hfs (by linarith) (by linarith)
      (by linarith) h).2.1

/-- Witness for `event_time_invariant_maintained` at the concrete
construction of `init_sample_eval` and the `set_margin` call of
`set_margin_sample_eval`. -/
theorem event_time_invariant_maintained_witness :
    EventTimeInvariant ⟨⟨10000, 100⟩, none, 0, 1000, 500, 0, 10000, 0,
      99500, 500, 100000, 0⟩ ∧
    EventTimeInvariant ⟨⟨10000, 100⟩, none, 0, 1277, 500, 0, 12770, 0,
      99500, 500, 100000, 0⟩ := by
  have h := event_time_invariant_maintained ⟨10000, 100⟩ 4 6 5 777 none
    ⟨⟨10000, 100⟩, none, 0, 1000, 500, 0, 10000, 0, 99500, 500, 100000, 0⟩
    ⟨⟨10000, 100⟩, none, 0, 1277, 500, 0, 12770, 0, 99500, 500, 100000, 0⟩
  have heti := h.1 (by norm_num) init_sample_eval
  exact ⟨heti, h.2 (by norm_num)
    (by norm_num [RelaxedWindowInvariant, MINIMUM_MARGIN_IN_SECS]) heti
    set_margin_sample_eval⟩

end Apasvo
